import Mathlib

/-!
A shallow embedding of the Open SWE manager-graph orchestration core: the
message-classification node (`classifyMessage`), the planner-session starter
(`startPlanner`), the conversation fork (`createNewSession`), the issue
initializer (`initializeGithubIssue`) and the GitHub `issues.labeled` webhook
handler.  External collaborators (the LangGraph run service, the GitHub REST
API, the routing model, the uuid generator) are modelled as oracles supplied
through environment records, and every external call the code would issue is
recorded in an effect trace, so that statements about "zero comments created"
or "a resume was issued" are statements about that trace.  JavaScript
truthiness of optional numeric and string fields (`if (x)` with `x : number`
treating `0` as absent, `?? ` versus `?.` semantics) is modelled explicitly.
-/

namespace OpenSWE

/-- JS truthiness of an optional number: `undefined`/`null` and `0` are falsy. -/
def truthyNat : Option Nat → Bool
  | none => false
  | some n => n != 0

/-- JS truthiness of an optional string: `undefined` and `""` are falsy; a
truthy value is returned unchanged. -/
def truthyStrOpt : Option String → Option String
  | none => none
  | some s => if s = "" then none else some s

/-- The `additional_kwargs` metadata carried by a message.  `githubIssueId` is
the ticket the message was materialized from (the spec's
`originatingTicketId`), `githubIssueCommentId` the comment it was mirrored to
(the spec's `ticketCommentId`). -/
structure Kwargs where
  githubIssueId : Option Nat := none
  githubIssueCommentId : Option Nat := none
  isOriginalIssue : Bool := false
  isFollowup : Bool := false
  requestSource : Option String := none
deriving DecidableEq

inductive Role where
  | human
  | ai
deriving DecidableEq

/-- A LangChain message: id, role, content string, metadata. -/
structure Message where
  id : String
  role : Role
  content : String
  kwargs : Kwargs := {}
deriving DecidableEq

/-- `isHumanMessage` from `@langchain/core/messages`. -/
def isHumanMessage (m : Message) : Bool := m.role == Role.human

/-- A session pointer: stable thread identity plus the most recent run. -/
structure Session where
  threadId : String
  runId : String
deriving DecidableEq

/-- An ordered task list with the index of the active task. -/
structure TaskPlan where
  tasks : List String
  activeTaskIndex : Nat
deriving DecidableEq

structure TargetRepository where
  owner : String
  repo : String
deriving DecidableEq

/-- The `ManagerGraphState` snapshot handed to every node. -/
structure ManagerGraphState where
  messages : List Message
  githubIssueId : Option Nat := none
  targetRepository : TargetRepository
  taskPlan : Option TaskPlan := none
  plannerSession : Option Session := none
  autoAcceptPlan : Bool := false
  branchName : Option String := none
deriving DecidableEq

/-- One entry of a returned `messages` delta: either an appended message or a
`RemoveMessage` retraction of an existing entry by id. -/
inductive MsgDelta where
  | add (m : Message)
  | removeMsg (id : String)
deriving DecidableEq

/-- The partial state delta (`ManagerGraphUpdate`) a node returns; fields the
node does not mention stay at their neutral defaults. -/
structure ManagerGraphUpdate where
  messages : List MsgDelta := []
  githubIssueId : Option Nat := none
  targetRepository : Option TargetRepository := none
  taskPlan : Option TaskPlan := none
  plannerSession : Option Session := none
  branchName : Option String := none
deriving DecidableEq

def PLANNER_GRAPH_ID : String := "planner"
def MANAGER_GRAPH_ID : String := "manager"

/-- One external call issued by the core.  `createRunEff` is a fresh
`runs.create` with `ifNotExists: "create"` semantics; `resumeRunEff` is a
`runs.create` carrying a `command.resume` signal against an existing thread. -/
inductive Effect where
  | threadGet (threadId : String)
  | getPlans (issueId : Nat)
  | getIssueEff (issueId : Nat)
  | modelCall (userMsgId : String) (taskPlan : Option TaskPlan)
  | createIssueEff (owner repo : String)
  | createCommentEff (issueId : Nat) (body : String)
  | createRunEff (threadId graphId : String)
  | resumeRunEff (threadId graphId : String)
  | regenTokenEff
deriving DecidableEq

/-- The thrown errors of the embedded nodes, one constructor per distinct
`throw new Error(...)` site. -/
inductive PipelineError where
  | noUserMessage
  | noToolCall
  | createIssueFailed
  | createCommentFailed
  | noPlannerSession
  | unsupportedLocalRoute (route : String)
  | invalidRoute (route : String)
  | sessionStartFailed
  | issueNotFound
  | noGithubIssueId
  | missingEncryptionKey
deriving DecidableEq

/-- The `Command` a graph node returns: a state delta plus the next node. -/
structure Command where
  update : ManagerGraphUpdate
  goto : String
deriving DecidableEq

/-- What `langGraphClient.threads.get` returns: the thread status string and,
for the planner thread, the programmer session thread id found in its values. -/
structure ThreadView where
  status : String
  programmerSessionThreadId : Option String := none

/-- What `getPlansFromIssue` returns. -/
structure IssuePlans where
  taskPlan : Option TaskPlan := none
  proposedPlan : Option (List String) := none

/-- The structured arguments of the single `respond_and_route` tool call. -/
structure ToolCallArgs where
  route : String
  response : String
deriving DecidableEq

/-- The oracle environment of `classifyMessage`: the LangGraph thread store,
the plans embedded in the issue body, the router model reply, the GitHub
issue/comment creation results, and the run id a resume returns. -/
structure ClassifyEnv where
  localMode : Bool
  threads : String → Option ThreadView
  plansFromIssue : Nat → IssuePlans
  modelToolCalls : List ToolCallArgs
  responseId : String
  createIssueResult : Option Nat
  commentId : String → Option Nat
  resumeRunId : String

/-- The `state.plannerSession?.threadId` access as used in truthiness tests:
`some` exactly when a session exists and its thread id is nonempty. -/
def presentThreadId (s : Option Session) : Option String :=
  match s with
  | none => none
  | some sess => if sess.threadId = "" then none else some sess.threadId

/-- The planner thread fetched at the start of `classifyMessage` (skipped in
local mode and when no planner session thread id is present). -/
def plannerThreadView (env : ClassifyEnv) (state : ManagerGraphState) :
    Option ThreadView :=
  if env.localMode then none
  else
    match presentThreadId state.plannerSession with
    | some tid => env.threads tid
    | none => none

/-- The programmer thread id discovered through the planner thread values
(`plannerThreadValues?.programmerSession?.threadId`, truthiness included). -/
def programmerFetchId (env : ClassifyEnv) (state : ManagerGraphState) :
    Option String :=
  match plannerThreadView env state with
  | some tv => truthyStrOpt tv.programmerSessionThreadId
  | none => none

/-- `plannerThread?.status ?? "not_started"`. -/
def classifyPlannerStatus (env : ClassifyEnv) (state : ManagerGraphState) :
    String :=
  match plannerThreadView env state with
  | some tv => tv.status
  | none => "not_started"

/-- `programmerThread?.status ?? "not_started"`. -/
def classifyProgrammerStatus (env : ClassifyEnv) (state : ManagerGraphState) :
    String :=
  match programmerFetchId env state with
  | some tid =>
    match env.threads tid with
    | some tv => tv.status
    | none => "not_started"
  | none => "not_started"

/-- The external reads `classifyMessage` performs before the model call: the
two thread-status fetches and the plan re-extraction from the issue
(`if (state.githubIssueId)`, so an id of `0` is treated as absent). -/
def classifyPreEffects (env : ClassifyEnv) (state : ManagerGraphState) :
    List Effect :=
  (if env.localMode then []
   else
     (match presentThreadId state.plannerSession with
      | some tid => [Effect.threadGet tid]
      | none => []) ++
     (match programmerFetchId env state with
      | some tid => [Effect.threadGet tid]
      | none => [])) ++
  (match state.githubIssueId with
   | some i => if i != 0 then [Effect.getPlans i] else []
   | none => [])

/-- `issuePlans`: the result of `getPlansFromIssue`, fetched only when a
(truthy) `githubIssueId` is in state. -/
def issuePlansOf (env : ClassifyEnv) (state : ManagerGraphState) :
    Option IssuePlans :=
  match state.githubIssueId with
  | some i => if i != 0 then some (env.plansFromIssue i) else none
  | none => none

/-- `const taskPlan = issuePlans?.taskPlan ?? state.taskPlan`: the plan the
classification prompt is built from.  The ticket-body plan wins whenever the
ticket yields one; the in-memory plan is the fallback. -/
def classificationTaskPlan (env : ClassifyEnv) (state : ManagerGraphState) :
    Option TaskPlan :=
  match issuePlansOf env state with
  | some ip =>
    match ip.taskPlan with
    | some p => some p
    | none => state.taskPlan
  | none => state.taskPlan

def humanMessages (msgs : List Message) : List Message :=
  msgs.filter isHumanMessage

/-- The human messages not yet mirrored to the issue: those whose
`additional_kwargs` lack a (truthy) `githubIssueId`. -/
def messagesNotInIssue (msgs : List Message) : List Message :=
  (msgs.filter isHumanMessage).filter
    (fun m => !truthyNat m.kwargs.githubIssueId)

/-- The id of `state.messages.findLast(isHumanMessage)` (empty if none). -/
def lastHumanId (msgs : List Message) : String :=
  ((msgs.reverse.find? isHumanMessage).map Message.id).getD ""

/-- The AI reply message carrying the tool call, as appended to state. -/
def responseMessage (env : ClassifyEnv) (args : ToolCallArgs) : Message :=
  { id := env.responseId, role := Role.ai, content := args.response }

/-- One `createIssueComment` call per unmirrored human message, body equal to
the message content. -/
def mirrorCommentEffects (issueId : Nat) (msgs : List Message) : List Effect :=
  (messagesNotInIssue msgs).map
    (fun m => Effect.createCommentEff issueId m.content)

/-- The tagged copy replacing a mirrored message: same id and content, fresh
`additional_kwargs` holding only the issue id, the comment id and (for the
followup route) the `isFollowup` flag — the old kwargs are not spread over. -/
def mirrorTagged (issueId cid : Nat) (fl : Bool) (m : Message) : Message :=
  { m with
    kwargs :=
      { githubIssueId := some issueId, githubIssueCommentId := some cid,
        isOriginalIssue := false, isFollowup := fl, requestSource := none } }

/-- The retract-and-replace message deltas pushed for each mirrored message. -/
def mirrorDeltas (env : ClassifyEnv) (issueId : Nat) (fl : Bool)
    (msgs : List Message) : List MsgDelta :=
  (messagesNotInIssue msgs).flatMap
    (fun m =>
      match env.commentId m.id with
      | some cid =>
        [MsgDelta.removeMsg m.id, MsgDelta.add (mirrorTagged issueId cid fl m)]
      | none => [])

/-- The tail of `classifyMessage` after the issue is known to exist and any
missing comments were added: routes `update_programmer`, `update_planner` and
`resume_and_update_planner` end the pass, the start-planner routes go to the
`start-planner` node, anything else is an invalid route.  The update carries
the issue id only when truthy (`...(githubIssueId ? { githubIssueId } : {})`). -/
def finalRouteStep (route : String) (issueId : Option Nat)
    (msgs : List MsgDelta) (eff : List Effect) :
    Except PipelineError Command × List Effect :=
  let upd : ManagerGraphUpdate :=
    { messages := msgs
      githubIssueId := if truthyNat issueId then issueId else none }
  if route = "update_programmer" ∨ route = "update_planner" ∨
      route = "resume_and_update_planner" then
    (Except.ok ⟨upd, "END"⟩, eff)
  else if route = "start_planner" ∨ route = "start_planner_for_followup" then
    (Except.ok ⟨upd, "start-planner"⟩, eff)
  else
    (Except.error (PipelineError.invalidRoute route), eff)

/-- The catch-up branch taken when an issue exists and more than one human
message is in state: one comment per unmirrored message (all issued, the whole
step failing if any returns no id), each mirrored message retracted and
replaced by a tagged copy; then, whenever the planner thread is interrupted, a
resume run against the existing planner thread id, recorded in the returned
session pointer (kept only when both the new run id and the thread id are
truthy). -/
def mirrorStep (env : ClassifyEnv) (state : ManagerGraphState)
    (args : ToolCallArgs) (rm : Message) (issueId : Nat) :
    Except PipelineError Command × List Effect :=
  let commentEffList := mirrorCommentEffects issueId state.messages
  if (messagesNotInIssue state.messages).all
      (fun m => (env.commentId m.id).isSome) then
    let fl := args.route == "start_planner_for_followup"
    let deltas := mirrorDeltas env issueId fl state.messages
    let goto := if args.route == "start_planner_for_followup"
      then "start-planner" else "END"
    if classifyPlannerStatus env state = "interrupted" then
      match presentThreadId state.plannerSession with
      | none => (Except.error PipelineError.noPlannerSession, commentEffList)
      | some tid =>
        let upd : ManagerGraphUpdate :=
          { messages := MsgDelta.add rm :: deltas
            plannerSession :=
              if env.resumeRunId != "" then some ⟨tid, env.resumeRunId⟩
              else none }
        (Except.ok ⟨upd, goto⟩,
         commentEffList ++ [Effect.resumeRunEff tid PLANNER_GRAPH_ID])
    else
      (Except.ok ⟨{ messages := MsgDelta.add rm :: deltas }, goto⟩,
       commentEffList)
  else
    (Except.error PipelineError.createCommentFailed, commentEffList)

/-- The route dispatch of `classifyMessage` once the tool call is in hand.
The source tests `if (!githubIssueId) ... else if (githubIssueId && >1 human)
... else fall-through`; here the truthy branch comes first, which is the same
decision tree.  Returned effects are the calls made after the model call. -/
def classifyRouteStep (env : ClassifyEnv) (state : ManagerGraphState)
    (userMessage : Message) (args : ToolCallArgs) (rm : Message) :
    Except PipelineError Command × List Effect :=
  if args.route = "no_op" then
    (Except.ok ⟨{ messages := [MsgDelta.add rm] }, "END"⟩, [])
  else if args.route = "create_new_issue" then
    (Except.ok ⟨{ messages := [MsgDelta.add rm] }, "create-new-session"⟩, [])
  else if env.localMode then
    if args.route = "start_planner" ∨
        args.route = "start_planner_for_followup" then
      (Except.ok ⟨{ messages := [MsgDelta.add rm] }, "start-planner"⟩, [])
    else
      (Except.error (PipelineError.unsupportedLocalRoute args.route), [])
  else if truthyNat state.githubIssueId then
    if 1 < (humanMessages state.messages).length then
      mirrorStep env state args rm (state.githubIssueId.getD 0)
    else
      finalRouteStep args.route state.githubIssueId [MsgDelta.add rm] []
  else
    match env.createIssueResult with
    | none =>
      (Except.error PipelineError.createIssueFailed,
       [Effect.createIssueEff state.targetRepository.owner
          state.targetRepository.repo])
    | some n =>
      let deltas : List MsgDelta :=
        [MsgDelta.add rm, MsgDelta.removeMsg userMessage.id,
         MsgDelta.add
           { userMessage with
             kwargs :=
               { githubIssueId := some n, isOriginalIssue := true,
                 githubIssueCommentId := none, isFollowup := false,
                 requestSource := none } }]
      finalRouteStep args.route (some n) deltas
        [Effect.createIssueEff state.targetRepository.owner
           state.targetRepository.repo]

/-- The `classifyMessage` node.  It finds the most recent human message
(failing with `noUserMessage` before any external call when there is none),
reads the thread statuses and the issue plan, makes the single model call, and
dispatches on the chosen route. -/
def classifyMessage (env : ClassifyEnv) (state : ManagerGraphState) :
    Except PipelineError Command × List Effect :=
  match state.messages.reverse.find? isHumanMessage with
  | none => (Except.error PipelineError.noUserMessage, [])
  | some userMessage =>
    let pre := classifyPreEffects env state ++
      [Effect.modelCall userMessage.id (classificationTaskPlan env state)]
    match env.modelToolCalls.head? with
    | none => (Except.error PipelineError.noToolCall, pre)
    | some args =>
      let step := classifyRouteStep env state userMessage args
        (responseMessage env args)
      (step.1, pre ++ step.2)

/-- The oracle environment of `startPlanner`: local-mode flag, whether the
call context already carries a `GITHUB_PAT` header (skipping the token
refresh), the uuid generated when no planner thread exists yet, the followup
message `getRecentUserRequest` extracts, and the run id `runs.create` returns
(`none` models the call throwing). -/
structure StartPlannerEnv where
  localMode : Bool
  hasPatHeader : Bool
  freshUuid : String
  branchFromConfig : String
  followupMessage : Option Message
  runResult : Option String

/-- The `startPlanner` node: reuse the planner thread id when a session is
present (`state.plannerSession?.threadId ?? uuidv4()`), refresh the
installation token unless in local mode or a PAT is present, submit the run
with create-if-absent semantics, and return the updated session pointer. -/
def startPlanner (env : StartPlannerEnv) (state : ManagerGraphState) :
    Except PipelineError ManagerGraphUpdate × List Effect :=
  let plannerThreadId :=
    match state.plannerSession with
    | some s => s.threadId
    | none => env.freshUuid
  let regenEffs : List Effect :=
    if !env.localMode && !env.hasPatHeader then [Effect.regenTokenEff] else []
  let eff := regenEffs ++ [Effect.createRunEff plannerThreadId PLANNER_GRAPH_ID]
  match env.runResult with
  | none => (Except.error PipelineError.sessionStartFailed, eff)
  | some rid =>
    (Except.ok { plannerSession := some ⟨plannerThreadId, rid⟩ }, eff)

/-- The tagged placeholder content of the human message forwarded to the new
session (the title/content wrapped in the issue tags). -/
def formatNewSessionContent (title body : String) : String :=
  "[issue-title] " ++ title ++ " [issue-content] " ++ body

/-- The confirmation reply recorded in the parent conversation, linking the
freshly created thread. -/
def newSessionConfirmationText (threadId : String) : String :=
  "Success! I just created a new session for your request. Thread ID: "
    ++ threadId

/-- The oracle environment of `createNewSession`: the issue fields the LLM
derives from the history, the created issue number (`none` models failure),
the generated uuids, and the header/local-mode flags controlling the token
refresh. -/
structure CreateSessionEnv where
  localMode : Bool
  hasPatHeader : Bool
  issueTitle : String
  issueBody : String
  createIssueResult : Option Nat
  humanMsgId : String
  aiMsgId : String
  newManagerThreadId : String
  responseMsgId : String
  branchFromConfig : String

/-- What `createNewSession` produces: the fresh top-level thread id, the
command update submitted to that new thread (with its goto), and the delta
returned to the parent conversation. -/
structure CreateSessionResult where
  runThreadId : String
  runGoto : String
  runUpdate : ManagerGraphUpdate
  returned : ManagerGraphUpdate
deriving DecidableEq

/-- The `createNewSession` node: derive title/body from the history, create a
brand-new issue, build the input messages for the new conversation, generate
a brand-new manager thread id, submit a run against it whose command update
carries the new issue id, the repository, the forwarded messages and the
branch, and hand the parent conversation only a confirmation reply. -/
def createNewSession (env : CreateSessionEnv) (state : ManagerGraphState) :
    Except PipelineError CreateSessionResult × List Effect :=
  let issueEff := Effect.createIssueEff state.targetRepository.owner
    state.targetRepository.repo
  match env.createIssueResult with
  | none => (Except.error PipelineError.createIssueFailed, [issueEff])
  | some n =>
    let inputMessages : List MsgDelta :=
      [MsgDelta.add
         { id := env.humanMsgId, role := Role.human,
           content := formatNewSessionContent env.issueTitle env.issueBody,
           kwargs := { githubIssueId := some n, isOriginalIssue := true } },
       MsgDelta.add
         { id := env.aiMsgId, role := Role.ai,
           content := "Created a new GitHub issue for your request and started a planning session for it." }]
    let regenEffs : List Effect :=
      if !env.localMode && !env.hasPatHeader then [Effect.regenTokenEff]
      else []
    let branchName := state.branchName.getD env.branchFromConfig
    let runUpdate : ManagerGraphUpdate :=
      { githubIssueId := some n
        targetRepository := some state.targetRepository
        messages := inputMessages
        branchName := some branchName }
    let responseMsg : Message :=
      { id := env.responseMsgId, role := Role.ai,
        content := newSessionConfirmationText env.newManagerThreadId }
    (Except.ok
       { runThreadId := env.newManagerThreadId
         runGoto := "start-planner"
         runUpdate := runUpdate
         returned := { messages := [MsgDelta.add responseMsg] } },
     [issueEff] ++ regenEffs ++
       [Effect.createRunEff env.newManagerThreadId MANAGER_GRAPH_ID])

/-- A fetched GitHub issue as `getIssue` returns it. -/
structure Issue where
  title : String
  body : Option String
  issueState : String
deriving DecidableEq

/-- The oracle environment of `initializeGithubIssue`: the issue store, the
`extractTasksFromIssueContent` parser (an external pure utility treated as an
oracle) and the uuid of the message materialized from the issue. -/
structure InitIssueEnv where
  localMode : Bool
  getIssue : Nat → Option Issue
  extractTasks : String → Option TaskPlan
  newMsgId : String

/-- `getMessageContentFromIssue`. -/
def issueMessageContent (iss : Issue) : String :=
  iss.title ++ " " ++ (iss.body.getD "")

/-- The `initializeGithubIssue` node: in local mode do nothing; when a human
message already exists, only re-read the task plan from the issue body (the
body winning whenever it yields a plan); otherwise require an issue id and
materialize the first human message from the issue. -/
def initializeGithubIssue (env : InitIssueEnv) (state : ManagerGraphState) :
    Except PipelineError ManagerGraphUpdate × List Effect :=
  if env.localMode then (Except.ok {}, [])
  else
    if state.messages.length != 0 && state.messages.any isHumanMessage then
      match state.githubIssueId with
      | some i =>
        if i != 0 then
          match env.getIssue i with
          | none =>
            (Except.error PipelineError.issueNotFound, [Effect.getIssueEff i])
          | some iss =>
            let tp : Option TaskPlan :=
              match truthyStrOpt iss.body with
              | some b =>
                match env.extractTasks b with
                | some p => some p
                | none => state.taskPlan
              | none => state.taskPlan
            (Except.ok { taskPlan := tp }, [Effect.getIssueEff i])
        else (Except.ok { taskPlan := state.taskPlan }, [])
      | none => (Except.ok { taskPlan := state.taskPlan }, [])
    else
      match state.githubIssueId with
      | none => (Except.error PipelineError.noGithubIssueId, [])
      | some i =>
        if i != 0 then
          match env.getIssue i with
          | none =>
            (Except.error PipelineError.issueNotFound, [Effect.getIssueEff i])
          | some iss =>
            let tp : Option TaskPlan :=
              match truthyStrOpt iss.body with
              | some b =>
                match env.extractTasks b with
                | some p => some p
                | none => state.taskPlan
              | none => state.taskPlan
            let newMessage : Message :=
              { id := env.newMsgId, role := Role.human,
                content := issueMessageContent iss,
                kwargs := { githubIssueId := some i, isOriginalIssue := true } }
            (Except.ok { messages := [MsgDelta.add newMessage], taskPlan := tp },
             [Effect.getIssueEff i])
        else (Except.error PipelineError.noGithubIssueId, [])

/-- Modelled from the spec: the Open SWE label helpers
(`getOpenSWELabel` and friends, `utils/github/label.ts`) are not part of the
sources; §4.4 and §8 of the specification fix the recognized label set as
standard, standard-auto-accept, max and max-auto-accept. -/
def openSWELabel : String := "standard"

def openSWEAutoAcceptLabel : String := "standard-auto-accept"

def openSWEMaxLabel : String := "max"

def openSWEMaxAutoAcceptLabel : String := "max-auto-accept"

def validOpenSWELabels : List String :=
  [openSWELabel, openSWEAutoAcceptLabel, openSWEMaxLabel,
   openSWEMaxAutoAcceptLabel]

/-- The `issues.labeled` webhook payload fields the handler reads. -/
structure WebhookPayload where
  labelName : Option String
  issueNumber : Nat
  issueTitle : String
  issueBody : Option String
  installationId : Option Nat
  senderLogin : String
  senderId : Nat
  owner : String
  repo : String

/-- The oracle environment of the webhook handler: whether the encryption-key
env var is present, the allow-list (`isAllowedUser`), the generated thread id,
the created run id, and whether `runs.create` succeeds (a failure is caught
and answered with a best-effort error comment). -/
structure WebhookEnv where
  hasEncryptionKey : Bool
  allowedUser : String → Bool
  newThreadId : String
  runId : String
  runCreateOk : Bool

/-- The acknowledgment comment body, carrying the run and thread ids. -/
def webhookAckBody (runId threadId userLogin : String) : String :=
  "Open SWE has been triggered for this issue. " ++ userLogin ++ " "
    ++ runId ++ " " ++ threadId

/-- The best-effort error comment body posted when processing fails. -/
def webhookErrorBody : String :=
  "Open SWE encountered an error while processing this issue."

/-- The `issues.labeled` handler: a missing encryption key throws before
anything else; an unrecognized (or missing) label, a missing installation id
and a sender absent from the allow-list each drop the event silently, with no
comment created and no run started; otherwise a manager run is started for
the issue and an acknowledgment comment posted (on a run failure the caught
error produces only a best-effort error comment). -/
def handleIssuesLabeled (env : WebhookEnv) (payload : WebhookPayload) :
    Except PipelineError Unit × List Effect :=
  if !env.hasEncryptionKey then
    (Except.error PipelineError.missingEncryptionKey, [])
  else
    match payload.labelName with
    | none => (Except.ok (), [])
    | some label =>
      if label ∉ validOpenSWELabels then (Except.ok (), [])
      else
        match payload.installationId with
        | none => (Except.ok (), [])
        | some instId =>
          if instId == 0 then (Except.ok (), [])
          else if !env.allowedUser payload.senderLogin then (Except.ok (), [])
          else if env.runCreateOk then
            (Except.ok (),
             [Effect.createRunEff env.newThreadId MANAGER_GRAPH_ID,
              Effect.createCommentEff payload.issueNumber
                (webhookAckBody env.runId env.newThreadId payload.senderLogin)])
          else
            (Except.ok (),
             [Effect.createRunEff env.newThreadId MANAGER_GRAPH_ID,
              Effect.createCommentEff payload.issueNumber webhookErrorBody])

/-- Whether a node result is a success. -/
def isOkResult {ε α : Type} : Except ε α → Bool
  | Except.ok _ => true
  | Except.error _ => false

/-- The update carried by a successful command (neutral on error). -/
def cmdUpdate : Except PipelineError Command → ManagerGraphUpdate
  | Except.ok c => c.update
  | Except.error _ => {}

/-- The planner session pointer of a classification result. -/
def sessionOfResult (r : Except PipelineError Command) : Option Session :=
  (cmdUpdate r).plannerSession

/-- The update of a successful `startPlanner` result (neutral on error). -/
def updOf : Except PipelineError ManagerGraphUpdate → ManagerGraphUpdate
  | Except.ok u => u
  | Except.error _ => {}

def isModelCallEff : Effect → Bool
  | Effect.modelCall _ _ => true
  | _ => false

def isCommentEff : Effect → Bool
  | Effect.createCommentEff _ _ => true
  | _ => false

def isResumeEff : Effect → Bool
  | Effect.resumeRunEff _ _ => true
  | _ => false

def isCreateRunEff : Effect → Bool
  | Effect.createRunEff _ _ => true
  | _ => false

/-- Whether a trace contains a resume submission. -/
def hasResumeEff (tr : List Effect) : Bool := tr.any isResumeEff

/-- Whether a trace contains a fresh-run submission. -/
def hasCreateRunEff (tr : List Effect) : Bool := tr.any isCreateRunEff

/-- The number of classification-model calls in a trace. -/
def modelCallCount (tr : List Effect) : Nat :=
  (tr.filter isModelCallEff).length

/-- The comment-creation calls of a trace, in order. -/
def commentCalls (tr : List Effect) : List Effect :=
  tr.filter isCommentEff

/-- An effect that is a plain read (thread status or issue plan fetch). -/
def effPlain : Effect → Bool
  | Effect.threadGet _ => true
  | Effect.getPlans _ => true
  | _ => false

theorem pre_effects_plain (env : ClassifyEnv) (state : ManagerGraphState) :
    (classifyPreEffects env state).all effPlain = true := by
  unfold classifyPreEffects
  simp only [List.all_append, Bool.and_eq_true]
  refine ⟨?_, ?_⟩
  · split
    · rfl
    · simp only [List.all_append, Bool.and_eq_true]
      refine ⟨?_, ?_⟩
      · split <;> simp [effPlain]
      · split <;> simp [effPlain]
  · split
    · split <;> simp [effPlain]
    · rfl

theorem plain_any_false {p : Effect → Bool} {tr : List Effect}
    (h : tr.all effPlain = true)
    (hp : ∀ tid, p (Effect.threadGet tid) = false)
    (hq : ∀ i, p (Effect.getPlans i) = false) :
    tr.any p = false := by
  cases hx : tr.any p
  · rfl
  · exfalso
    rw [List.any_eq_true] at hx
    rcases hx with ⟨e, he, hpe⟩
    have hplain := List.all_eq_true.mp h e he
    cases e <;> simp_all [effPlain]

theorem plain_filter_eq_nil {p : Effect → Bool} {tr : List Effect}
    (h : tr.all effPlain = true)
    (hp : ∀ tid, p (Effect.threadGet tid) = false)
    (hq : ∀ i, p (Effect.getPlans i) = false) :
    tr.filter p = [] := by
  rw [List.filter_eq_nil_iff]
  intro e he
  have hplain := List.all_eq_true.mp h e he
  cases e <;> simp_all [effPlain]

theorem mirrorComment_filter_self (i : Nat) (msgs : List Message) :
    (mirrorCommentEffects i msgs).filter isCommentEff =
      mirrorCommentEffects i msgs := by
  rw [List.filter_eq_self]
  intro e he
  rw [mirrorCommentEffects, List.mem_map] at he
  rcases he with ⟨m, _, rfl⟩
  rfl

theorem mirrorComment_filter_eq_nil {p : Effect → Bool} (i : Nat)
    (msgs : List Message)
    (hp : ∀ j b, p (Effect.createCommentEff j b) = false) :
    (mirrorCommentEffects i msgs).filter p = [] := by
  rw [List.filter_eq_nil_iff]
  intro e he
  rw [mirrorCommentEffects, List.mem_map] at he
  rcases he with ⟨m, _, rfl⟩
  simp [hp]

theorem mirrorComment_any_false {p : Effect → Bool} (i : Nat)
    (msgs : List Message)
    (hp : ∀ j b, p (Effect.createCommentEff j b) = false) :
    (mirrorCommentEffects i msgs).any p = false := by
  cases hx : (mirrorCommentEffects i msgs).any p
  · rfl
  · exfalso
    rw [List.any_eq_true] at hx
    rcases hx with ⟨e, he, hpe⟩
    rw [mirrorCommentEffects, List.mem_map] at he
    rcases he with ⟨m, _, rfl⟩
    simp [hp] at hpe

theorem presentThreadId_some {s : Option Session} {tid : String}
    (h : presentThreadId s = some tid) :
    ∃ sess, s = some sess ∧ sess.threadId = tid ∧ sess.threadId ≠ "" := by
  cases s with
  | none => simp [presentThreadId] at h
  | some sess =>
    simp only [presentThreadId] at h
    by_cases he : sess.threadId = ""
    · rw [if_pos he] at h
      cases h
    · rw [if_neg he] at h
      injection h with h
      exact ⟨sess, rfl, h, he⟩

theorem find?_isSome_of_any {l : List Message}
    (h : l.any isHumanMessage = true) :
    ∃ um, l.find? isHumanMessage = some um ∧ isHumanMessage um = true := by
  induction l with
  | nil => simp at h
  | cons a t ih =>
    by_cases ha : isHumanMessage a = true
    · exact ⟨a, by rw [List.find?_cons_of_pos _ ha], ha⟩
    · have hb : isHumanMessage a = false := by
        cases hx : isHumanMessage a
        · rfl
        · exact absurd hx ha
      have ht : t.any isHumanMessage = true := by
        rw [List.any_cons, hb] at h
        simpa using h
      rcases ih ht with ⟨um, hum, hh⟩
      exact ⟨um, by rw [List.find?_cons_of_neg _ (by simp [hb]), hum], hh⟩

theorem any_reverse_human (l : List Message) :
    l.reverse.any isHumanMessage = l.any isHumanMessage := by
  cases hx : l.any isHumanMessage
  · rw [List.any_eq_false] at hx ⊢
    intro x hxm
    exact hx x (List.mem_reverse.mp hxm)
  · rw [List.any_eq_true] at hx ⊢
    rcases hx with ⟨x, hxm, hpx⟩
    exact ⟨x, List.mem_reverse.mpr hxm, hpx⟩

/-- An effect that can appear after the model call inside `classifyMessage`. -/
def effPost : Effect → Bool
  | Effect.createIssueEff _ _ => true
  | Effect.createCommentEff _ _ => true
  | Effect.resumeRunEff _ _ => true
  | _ => false

theorem resume_not_mem_comments {tid gid : String} {i : Nat}
    {msgs : List Message} :
    Effect.resumeRunEff tid gid ∉ mirrorCommentEffects i msgs := by
  intro h
  rw [mirrorCommentEffects, List.mem_map] at h
  rcases h with ⟨m, _, hm⟩
  cases hm

theorem finalRouteStep_snd (r : String) (i : Option Nat) (m : List MsgDelta)
    (e : List Effect) : (finalRouteStep r i m e).2 = e := by
  simp only [finalRouteStep]
  split
  · rfl
  · split <;> rfl

theorem finalRouteStep_session {r : String} {i : Option Nat}
    {m : List MsgDelta} {e : List Effect} {cmd : Command}
    (h : (finalRouteStep r i m e).1 = Except.ok cmd) :
    cmd.update.plannerSession = none := by
  simp only [finalRouteStep] at h
  split at h
  · injection h with h
    rw [← h]
  · split at h
    · injection h with h
      rw [← h]
    · cases h

theorem mirrorComment_all_post (i : Nat) (msgs : List Message) :
    (mirrorCommentEffects i msgs).all effPost = true := by
  rw [List.all_eq_true]
  intro e he
  rw [mirrorCommentEffects, List.mem_map] at he
  rcases he with ⟨m, _, rfl⟩
  rfl

theorem mirrorStep_effects_post (env : ClassifyEnv)
    (state : ManagerGraphState) (args : ToolCallArgs) (rm : Message)
    (n : Nat) : (mirrorStep env state args rm n).2.all effPost = true := by
  simp only [mirrorStep]
  split
  · split
    · split
      · exact mirrorComment_all_post n state.messages
      · simp only [List.all_append, Bool.and_eq_true]
        exact ⟨mirrorComment_all_post n state.messages, by simp [effPost]⟩
    · exact mirrorComment_all_post n state.messages
  · exact mirrorComment_all_post n state.messages

theorem routeStep_effects_post (env : ClassifyEnv)
    (state : ManagerGraphState) (um : Message) (args : ToolCallArgs)
    (rm : Message) :
    (classifyRouteStep env state um args rm).2.all effPost = true := by
  simp only [classifyRouteStep]
  split
  · rfl
  · split
    · rfl
    · split
      · split <;> rfl
      · split
        · split
          · exact mirrorStep_effects_post env state args rm _
          · simp [finalRouteStep_snd]
        · split
          · simp [effPost]
          · simp [finalRouteStep_snd, effPost]

theorem post_any_false {p : Effect → Bool} {tr : List Effect}
    (h : tr.all effPost = true)
    (h1 : ∀ o r, p (Effect.createIssueEff o r) = false)
    (h2 : ∀ i b, p (Effect.createCommentEff i b) = false)
    (h3 : ∀ t g, p (Effect.resumeRunEff t g) = false) :
    tr.any p = false := by
  cases hx : tr.any p
  · rfl
  · exfalso
    rw [List.any_eq_true] at hx
    rcases hx with ⟨e, he, hpe⟩
    have hplain := List.all_eq_true.mp h e he
    cases e <;> simp_all [effPost]

theorem post_filter_eq_nil {p : Effect → Bool} {tr : List Effect}
    (h : tr.all effPost = true)
    (h1 : ∀ o r, p (Effect.createIssueEff o r) = false)
    (h2 : ∀ i b, p (Effect.createCommentEff i b) = false)
    (h3 : ∀ t g, p (Effect.resumeRunEff t g) = false) :
    tr.filter p = [] := by
  rw [List.filter_eq_nil_iff]
  intro e he
  have hplain := List.all_eq_true.mp h e he
  cases e <;> simp_all [effPost]

theorem routeStep_resume_mem {env : ClassifyEnv} {state : ManagerGraphState}
    {um : Message} {args : ToolCallArgs} {rm : Message} {tid gid : String}
    (h : Effect.resumeRunEff tid gid ∈
      (classifyRouteStep env state um args rm).2) :
    classifyPlannerStatus env state = "interrupted" ∧
    presentThreadId state.plannerSession = some tid ∧
    gid = PLANNER_GRAPH_ID := by
  simp only [classifyRouteStep] at h
  split at h
  · simp at h
  · split at h
    · simp at h
    · split at h
      · split at h <;> simp at h
      · split at h
        · split at h
          · simp only [mirrorStep] at h
            split at h
            · split at h
              · split at h
                · exact absurd h resume_not_mem_comments
                · rw [List.mem_append] at h
                  rcases h with h | h
                  · exact absurd h resume_not_mem_comments
                  · rw [List.mem_singleton] at h
                    injection h with ha hb
                    rename_i s2 heq
                    subst ha
                    exact ⟨by assumption, heq, hb⟩
              · exact absurd h resume_not_mem_comments
            · exact absurd h resume_not_mem_comments
          · rw [finalRouteStep_snd] at h
            simp at h
        · split at h
          · simp at h
          · rw [finalRouteStep_snd] at h
            simp at h

theorem routeStep_session_some {env : ClassifyEnv}
    {state : ManagerGraphState} {um : Message} {args : ToolCallArgs}
    {rm : Message} {cmd : Command} {sess : Session}
    (h : (classifyRouteStep env state um args rm).1 = Except.ok cmd)
    (hs : cmd.update.plannerSession = some sess) :
    classifyPlannerStatus env state = "interrupted" ∧
    presentThreadId state.plannerSession = some sess.threadId ∧
    sess.runId = env.resumeRunId := by
  simp only [classifyRouteStep] at h
  split at h
  · injection h with h
    rw [← h] at hs
    cases hs
  · split at h
    · injection h with h
      rw [← h] at hs
      cases hs
    · split at h
      · split at h
        · injection h with h
          rw [← h] at hs
          cases hs
        · cases h
      · split at h
        · split at h
          · simp only [mirrorStep] at h
            split at h
            · split at h
              · split at h
                · cases h
                · injection h with h
                  rw [← h] at hs
                  simp only at hs
                  split at hs
                  · injection hs with hs
                    rename_i s2 heq hbne
                    rw [← hs]
                    exact ⟨by assumption, by simpa using heq, rfl⟩
                  · exact Option.noConfusion hs
              · injection h with h
                rw [← h] at hs
                cases hs
            · cases h
          · exact absurd hs (by rw [finalRouteStep_session h]; simp)
        · split at h
          · cases h
          · exact absurd hs (by rw [finalRouteStep_session h]; simp)

theorem classify_no_human {env : ClassifyEnv} {state : ManagerGraphState}
    (h : state.messages.any isHumanMessage = false) :
    classifyMessage env state =
      (Except.error PipelineError.noUserMessage, []) := by
  have hfind : state.messages.reverse.find? isHumanMessage = none := by
    rw [List.find?_eq_none]
    rw [List.any_eq_false] at h
    intro x hx
    exact h x (List.mem_reverse.mp hx)
  simp [classifyMessage, hfind]

theorem classify_modelCall_structure (env : ClassifyEnv)
    {state : ManagerGraphState} {um : Message}
    (hfind : state.messages.reverse.find? isHumanMessage = some um) :
    ∃ extra, (classifyMessage env state).2 =
      (classifyPreEffects env state ++
        [Effect.modelCall um.id (classificationTaskPlan env state)]) ++
        extra ∧
      extra.all effPost = true := by
  simp only [classifyMessage, hfind]
  cases hh : env.modelToolCalls.head? with
  | none => exact ⟨[], by simp, rfl⟩
  | some args =>
    exact ⟨(classifyRouteStep env state um args (responseMessage env args)).2,
      rfl, routeStep_effects_post env state um args (responseMessage env args)⟩

theorem classify_modelCall_mem {env : ClassifyEnv}
    {state : ManagerGraphState} {um : Message}
    (hfind : state.messages.reverse.find? isHumanMessage = some um) :
    Effect.modelCall um.id (classificationTaskPlan env state) ∈
      (classifyMessage env state).2 := by
  rcases classify_modelCall_structure env hfind with ⟨extra, heq, _⟩
  rw [heq]
  simp

theorem classify_modelCallCount_one {env : ClassifyEnv}
    {state : ManagerGraphState} {um : Message}
    (hfind : state.messages.reverse.find? isHumanMessage = some um) :
    modelCallCount (classifyMessage env state).2 = 1 := by
  rcases classify_modelCall_structure env hfind with ⟨extra, heq, hall⟩
  rw [heq, modelCallCount, List.filter_append, List.filter_append]
  rw [plain_filter_eq_nil (pre_effects_plain env state)
    (fun _ => rfl) (fun _ => rfl)]
  rw [post_filter_eq_nil hall (fun _ _ => rfl) (fun _ _ => rfl)
    (fun _ _ => rfl)]
  simp [isModelCallEff]

theorem classify_no_createRun (env : ClassifyEnv)
    (state : ManagerGraphState) :
    hasCreateRunEff (classifyMessage env state).2 = false := by
  rw [hasCreateRunEff]
  cases hfind : state.messages.reverse.find? isHumanMessage with
  | none => simp [classifyMessage, hfind]
  | some um =>
    rcases classify_modelCall_structure env hfind with
      ⟨extra, heq, hall⟩
    rw [heq, List.any_append, List.any_append]
    rw [plain_any_false (pre_effects_plain env state)
      (fun _ => rfl) (fun _ => rfl)]
    rw [post_any_false hall (fun _ _ => rfl) (fun _ _ => rfl)
      (fun _ _ => rfl)]
    simp [isCreateRunEff]

theorem classify_resume_mem {env : ClassifyEnv} {state : ManagerGraphState}
    {tid gid : String}
    (h : Effect.resumeRunEff tid gid ∈ (classifyMessage env state).2) :
    classifyPlannerStatus env state = "interrupted" ∧
    ∃ s, state.plannerSession = some s ∧ tid = s.threadId ∧
      gid = PLANNER_GRAPH_ID := by
  cases hfind : state.messages.reverse.find? isHumanMessage with
  | none => simp [classifyMessage, hfind] at h
  | some um =>
    cases hh : env.modelToolCalls.head? with
    | none =>
      exfalso
      simp only [classifyMessage, hfind, hh] at h
      rw [List.mem_append] at h
      rcases h with h | h
      · have := List.all_eq_true.mp (pre_effects_plain env state) _ h
        simp [effPlain] at this
      · simp at h
    | some args =>
      simp only [classifyMessage, hfind, hh] at h
      rw [List.mem_append] at h
      rcases h with h | h
      · exfalso
        rw [List.mem_append] at h
        rcases h with h | h
        · have := List.all_eq_true.mp (pre_effects_plain env state) _ h
          simp [effPlain] at this
        · simp at h
      · rcases routeStep_resume_mem h with ⟨h1, h2, h3⟩
        rcases presentThreadId_some h2 with ⟨s, hs, hts, _⟩
        exact ⟨h1, s, hs, hts.symm, h3⟩

theorem classify_hasResume_interrupted {env : ClassifyEnv}
    {state : ManagerGraphState}
    (h : hasResumeEff (classifyMessage env state).2 = true) :
    classifyPlannerStatus env state = "interrupted" := by
  rw [hasResumeEff, List.any_eq_true] at h
  rcases h with ⟨e, he, hres⟩
  cases e <;> simp [isResumeEff] at hres
  exact (classify_resume_mem he).1

theorem classify_session_some {env : ClassifyEnv}
    {state : ManagerGraphState} {cmd : Command} {sess : Session}
    (h : (classifyMessage env state).1 = Except.ok cmd)
    (hs : cmd.update.plannerSession = some sess) :
    classifyPlannerStatus env state = "interrupted" ∧
    (∃ s, state.plannerSession = some s ∧ sess.threadId = s.threadId) ∧
    sess.runId = env.resumeRunId := by
  cases hfind : state.messages.reverse.find? isHumanMessage with
  | none =>
    exfalso
    simp [classifyMessage, hfind] at h
  | some um =>
    cases hh : env.modelToolCalls.head? with
    | none =>
      exfalso
      simp [classifyMessage, hfind, hh] at h
    | some args =>
      simp only [classifyMessage, hfind, hh] at h
      rcases routeStep_session_some h hs with ⟨h1, h2, h3⟩
      rcases presentThreadId_some h2 with ⟨s, hsx, hts, _⟩
      exact ⟨h1, ⟨s, hsx, hts.symm⟩, h3⟩

theorem classify_mirror_eq {env : ClassifyEnv} {state : ManagerGraphState}
    {um : Message} {args : ToolCallArgs} {n : Nat}
    (hfind : state.messages.reverse.find? isHumanMessage = some um)
    (hargs : env.modelToolCalls.head? = some args)
    (hlocal : env.localMode = false)
    (h1 : args.route ≠ "no_op") (h2 : args.route ≠ "create_new_issue")
    (hissue : state.githubIssueId = some n) (hn : n ≠ 0)
    (hcount : 1 < (humanMessages state.messages).length) :
    classifyMessage env state =
      ((mirrorStep env state args (responseMessage env args) n).1,
       (classifyPreEffects env state ++
         [Effect.modelCall um.id (classificationTaskPlan env state)]) ++
       (mirrorStep env state args (responseMessage env args) n).2) := by
  have ht : truthyNat state.githubIssueId = true := by
    rw [hissue]
    simp [truthyNat, hn]
  have hg : state.githubIssueId.getD 0 = n := by
    rw [hissue]
    rfl
  simp only [classifyMessage, hfind, hargs, classifyRouteStep, if_neg h1,
    if_neg h2, hlocal, Bool.false_eq_true, if_false, ht, if_true,
    if_pos hcount, hg]

theorem mirrorStep_resume_eq {env : ClassifyEnv} {state : ManagerGraphState}
    (args : ToolCallArgs) (rm : Message) (n : Nat) {s : Session}
    (hall : ((messagesNotInIssue state.messages).all
      (fun m => (env.commentId m.id).isSome)) = true)
    (hint : classifyPlannerStatus env state = "interrupted")
    (hsess : state.plannerSession = some s) (htid : s.threadId ≠ "")
    (hrid : env.resumeRunId ≠ "") :
    mirrorStep env state args rm n =
      (Except.ok
        ⟨{ messages := MsgDelta.add rm ::
             mirrorDeltas env n (args.route == "start_planner_for_followup")
               state.messages
           plannerSession := some ⟨s.threadId, env.resumeRunId⟩ },
         if args.route == "start_planner_for_followup" then "start-planner"
         else "END"⟩,
       mirrorCommentEffects n state.messages ++
         [Effect.resumeRunEff s.threadId PLANNER_GRAPH_ID]) := by
  have hpid : presentThreadId state.plannerSession = some s.threadId := by
    rw [hsess]
    simp only [presentThreadId]
    rw [if_neg htid]
  have hbne : (env.resumeRunId != "") = true := by
    simpa [bne_iff_ne] using hrid
  simp only [mirrorStep, hall, if_true, hint, hpid, hbne]

theorem mirrorStep_quiet_eq {env : ClassifyEnv} {state : ManagerGraphState}
    {args : ToolCallArgs} {rm : Message} {n : Nat}
    (hall : ((messagesNotInIssue state.messages).all
      (fun m => (env.commentId m.id).isSome)) = true)
    (hint : classifyPlannerStatus env state ≠ "interrupted") :
    mirrorStep env state args rm n =
      (Except.ok
        ⟨{ messages := MsgDelta.add rm ::
             mirrorDeltas env n (args.route == "start_planner_for_followup")
               state.messages },
         if args.route == "start_planner_for_followup" then "start-planner"
         else "END"⟩,
       mirrorCommentEffects n state.messages) := by
  simp only [mirrorStep, hall, if_true, if_neg hint]

theorem any_of_humanMessages_pos {msgs : List Message}
    (h : 0 < (humanMessages msgs).length) :
    msgs.any isHumanMessage = true := by
  rcases hx : humanMessages msgs with _ | ⟨m, rest⟩
  · rw [hx] at h
    simp at h
  · have hm : m ∈ humanMessages msgs := by
      rw [hx]
      exact List.mem_cons_self _ _
    rw [humanMessages] at hm
    have hmf := List.mem_filter.mp hm
    rw [List.any_eq_true]
    exact ⟨m, hmf.1, hmf.2⟩

theorem lastHumanId_eq {msgs : List Message} {um : Message}
    (hfind : msgs.reverse.find? isHumanMessage = some um) :
    lastHumanId msgs = um.id := by
  rw [lastHumanId, hfind]
  rfl

theorem mirrorDeltas_mem {env : ClassifyEnv} (n : Nat) (fl : Bool)
    {msgs : List Message} {m : Message} {cid : Nat}
    (hm : m ∈ messagesNotInIssue msgs)
    (hc : env.commentId m.id = some cid) :
    MsgDelta.removeMsg m.id ∈ mirrorDeltas env n fl msgs ∧
    MsgDelta.add (mirrorTagged n cid fl m) ∈ mirrorDeltas env n fl msgs := by
  constructor <;>
  · rw [mirrorDeltas, List.mem_flatMap]
    refine ⟨m, hm, ?_⟩
    rw [hc]
    simp

theorem mirrorStep_ok_components {env : ClassifyEnv}
    {state : ManagerGraphState} (args : ToolCallArgs) (rm : Message) (n : Nat)
    (hall : ((messagesNotInIssue state.messages).all
      (fun m => (env.commentId m.id).isSome)) = true)
    (hwf : classifyPlannerStatus env state = "interrupted" →
      presentThreadId state.plannerSession ≠ none) :
    isOkResult (mirrorStep env state args rm n).1 = true ∧
    commentCalls (mirrorStep env state args rm n).2 =
      mirrorCommentEffects n state.messages ∧
    (cmdUpdate (mirrorStep env state args rm n).1).messages =
      MsgDelta.add rm :: mirrorDeltas env n
        (args.route == "start_planner_for_followup") state.messages := by
  simp only [mirrorStep, hall, if_true]
  by_cases hint : classifyPlannerStatus env state = "interrupted"
  · rw [if_pos hint]
    cases hpid : presentThreadId state.plannerSession with
    | none => exact absurd hpid (hwf hint)
    | some tid =>
      refine ⟨rfl, ?_, rfl⟩
      rw [commentCalls, List.filter_append, mirrorComment_filter_self]
      simp [isCommentEff]
  · rw [if_neg hint]
    refine ⟨rfl, ?_, rfl⟩
    rw [commentCalls, mirrorComment_filter_self]

/-- C1: Idempotent mirroring — the set of messages selected for comment
creation on a mirroring pass (`messagesNotInIssue`) contains only human
messages whose metadata lacks the ticket id, and exactly one comment call is
generated per selected message; hence a message already carrying a mirror tag
yields zero additional tracker comments on a repeated pass.  The
well-formedness hypothesis excludes a recorded ticket id of literal `0`
(GitHub never issues issue number 0; JS truthiness would treat it as absent). -/
theorem mirror_pass_selects_only_untagged (msgs : List Message) (i : Nat)
    (hwf : msgs.all (fun m => m.kwargs.githubIssueId != some 0) = true) :
    ((messagesNotInIssue msgs).all
      (fun m => m.kwargs.githubIssueId == none) = true) ∧
    (mirrorCommentEffects i msgs).length =
      (messagesNotInIssue msgs).length := by
  constructor
  · rw [List.all_eq_true]
    intro m hm
    simp only [messagesNotInIssue] at hm
    have hmem : m ∈ msgs := (List.mem_filter.mp (List.mem_filter.mp hm).1).1
    have hwfm := List.all_eq_true.mp hwf m hmem
    have hpred := (List.mem_filter.mp hm).2
    cases hg : m.kwargs.githubIssueId with
    | none => simp
    | some k =>
      exfalso
      rw [hg] at hpred hwfm
      cases k with
      | zero => simp at hwfm
      | succ j => simp [truthyNat] at hpred
  · rw [mirrorCommentEffects, List.length_map]

def c1Msgs : List Message :=
  [{ id := "m1", role := Role.human, content := "hello",
     kwargs := { githubIssueId := some 7, githubIssueCommentId := some 3 } },
   { id := "m2", role := Role.human, content := "again" },
   { id := "m3", role := Role.ai, content := "reply" }]

theorem mirror_pass_selects_only_untagged_check :
    ((messagesNotInIssue c1Msgs).all
      (fun m => m.kwargs.githubIssueId == none) = true) ∧
    (mirrorCommentEffects 7 c1Msgs).length =
      (messagesNotInIssue c1Msgs).length :=
  mirror_pass_selects_only_untagged c1Msgs 7 (by decide)

/-- C7: A history with no human-authored message makes classification fail
with the no-user-message error before any external call (the effect trace is
empty); a history with at least one human message proceeds, the single model
call being made for the most recent human message. -/
theorem no_user_message_fails_before_effects (env : ClassifyEnv)
    (state : ManagerGraphState) :
    (state.messages.any isHumanMessage = false →
      classifyMessage env state =
        (Except.error PipelineError.noUserMessage, [])) ∧
    (state.messages.any isHumanMessage = true →
      Effect.modelCall (lastHumanId state.messages)
        (classificationTaskPlan env state) ∈ (classifyMessage env state).2) := by
  constructor
  · exact fun h => classify_no_human h
  · intro h
    have hrev : state.messages.reverse.any isHumanMessage = true := by
      rw [any_reverse_human]
      exact h
    rcases find?_isSome_of_any hrev with ⟨um, hfind, _⟩
    rw [lastHumanId_eq hfind]
    exact classify_modelCall_mem hfind

def c7Env : ClassifyEnv :=
  { localMode := false
    threads := fun _ => none
    plansFromIssue := fun _ => {}
    modelToolCalls := []
    responseId := "a1"
    createIssueResult := none
    commentId := fun _ => none
    resumeRunId := "" }

def c7StateEmpty : ManagerGraphState :=
  { messages := [{ id := "b1", role := Role.ai, content := "bot" }]
    githubIssueId := none
    targetRepository := { owner := "o", repo := "r" } }

theorem no_user_message_fails_before_effects_check :
    classifyMessage c7Env c7StateEmpty =
      (Except.error PipelineError.noUserMessage, []) :=
  (no_user_message_fails_before_effects c7Env c7StateEmpty).1 (by decide)

/-- C8: The classification model is called exactly once per pipeline
invocation (no internal retry), and a reply with no structured tool call
aborts the invocation with the classification-failure error. -/
theorem classification_called_once_and_fatal (env : ClassifyEnv)
    (state : ManagerGraphState)
    (hh : state.messages.any isHumanMessage = true) :
    modelCallCount (classifyMessage env state).2 = 1 ∧
    (env.modelToolCalls = [] →
      (classifyMessage env state).1 =
        Except.error PipelineError.noToolCall) := by
  have hrev : state.messages.reverse.any isHumanMessage = true := by
    rw [any_reverse_human]
    exact hh
  rcases find?_isSome_of_any hrev with ⟨um, hfind, _⟩
  constructor
  · exact classify_modelCallCount_one hfind
  · intro hempty
    have hhead : env.modelToolCalls.head? = none := by
      rw [hempty]
      rfl
    simp [classifyMessage, hfind, hhead]

def c8State : ManagerGraphState :=
  { messages := [{ id := "m1", role := Role.human, content := "fix it" }]
    githubIssueId := none
    targetRepository := { owner := "o", repo := "r" } }

theorem classification_called_once_and_fatal_check :
    modelCallCount (classifyMessage c7Env c8State).2 = 1 ∧
    (c7Env.modelToolCalls = [] →
      (classifyMessage c7Env c8State).1 =
        Except.error PipelineError.noToolCall) :=
  classification_called_once_and_fatal c7Env c8State (by decide)

/-- C5: The plan used on a classification pass is re-extracted from the
ticket body whenever a ticket exists and its body yields a plan (the ticket
body wins over the in-memory plan); the in-memory plan is used only when no
ticket exists or the ticket body yields no plan.  The prompt-building model
call carries exactly this plan, and `initializeGithubIssue` applies the same
priority to the plan it returns. -/
theorem ticket_plan_overrides_memory_plan (env : ClassifyEnv)
    (envI : InitIssueEnv) (state : ManagerGraphState) (i : Nat)
    (p : TaskPlan) (iss : Issue) (b : String) :
    (state.githubIssueId = some i → i ≠ 0 →
      (env.plansFromIssue i).taskPlan = some p →
      classificationTaskPlan env state = some p) ∧
    (state.githubIssueId = none →
      classificationTaskPlan env state = state.taskPlan) ∧
    (state.githubIssueId = some i → i ≠ 0 →
      (env.plansFromIssue i).taskPlan = none →
      classificationTaskPlan env state = state.taskPlan) ∧
    (state.messages.any isHumanMessage = true →
      Effect.modelCall (lastHumanId state.messages)
        (classificationTaskPlan env state) ∈ (classifyMessage env state).2) ∧
    (envI.localMode = false → state.messages.any isHumanMessage = true →
      state.githubIssueId = some i → i ≠ 0 → envI.getIssue i = some iss →
      iss.body = some b → b ≠ "" → envI.extractTasks b = some p →
      (updOf (initializeGithubIssue envI state).1).taskPlan = some p) := by
  refine ⟨?_, ?_, ?_, ?_, ?_⟩
  · intro hi hn hp
    have hne : (i != 0) = true := by simpa [bne_iff_ne] using hn
    simp [classificationTaskPlan, issuePlansOf, hi, hne, hp]
  · intro hi
    simp [classificationTaskPlan, issuePlansOf, hi]
  · intro hi hn hp
    have hne : (i != 0) = true := by simpa [bne_iff_ne] using hn
    simp [classificationTaskPlan, issuePlansOf, hi, hne, hp]
  · intro h
    have hrev : state.messages.reverse.any isHumanMessage = true := by
      rw [any_reverse_human]
      exact h
    rcases find?_isSome_of_any hrev with ⟨um, hfind, _⟩
    rw [lastHumanId_eq hfind]
    exact classify_modelCall_mem hfind
  · intro hloc hany hi hn hiss hbody hbne hext
    have hne : (i != 0) = true := by simpa [bne_iff_ne] using hn
    have hlen : (state.messages.length != 0) = true := by
      rcases hx : state.messages with _ | ⟨m, rest⟩
      · rw [hx] at hany
        simp at hany
      · simp
    simp only [initializeGithubIssue, hloc, Bool.false_eq_true, if_false,
      hlen, hany, Bool.and_self, if_true, hi, hne, hiss, truthyStrOpt,
      hbody, if_neg hbne, hext]
    rfl

def c5Env : ClassifyEnv :=
  { localMode := false
    threads := fun _ => none
    plansFromIssue := fun _ =>
      { taskPlan := some { tasks := ["from-issue"], activeTaskIndex := 0 } }
    modelToolCalls := []
    responseId := "a1"
    createIssueResult := none
    commentId := fun _ => none
    resumeRunId := "" }

def c5EnvI : InitIssueEnv :=
  { localMode := false
    getIssue := fun _ =>
      some { title := "t", body := some "plan-block", issueState := "open" }
    extractTasks := fun _ =>
      some { tasks := ["from-issue"], activeTaskIndex := 0 }
    newMsgId := "n1" }

def c5State : ManagerGraphState :=
  { messages := [{ id := "m1", role := Role.human, content := "fix it" }]
    githubIssueId := some 4
    targetRepository := { owner := "o", repo := "r" }
    taskPlan := some { tasks := ["in-memory"], activeTaskIndex := 0 } }

theorem ticket_plan_overrides_memory_plan_check :
    classificationTaskPlan c5Env c5State =
      some { tasks := ["from-issue"], activeTaskIndex := 0 } :=
  (ticket_plan_overrides_memory_plan c5Env c5EnvI c5State 4
      { tasks := ["from-issue"], activeTaskIndex := 0 }
      { title := "t", body := some "plan-block", issueState := "open" }
      "plan-block").1 rfl (by decide) rfl

/-- C2: Session identity is stable.  `startPlanner` reuses the existing
planner thread id whenever a session is present and generates a fresh one
only when none exists; the resume path inside classification only ever
returns a session pointer whose thread id is the state's existing planner
thread id (with the resume run id), and every resume run is issued against
that existing thread id. -/
theorem planner_threadId_stable (envS : StartPlannerEnv) (envC : ClassifyEnv)
    (state : ManagerGraphState) :
    (∀ s u, state.plannerSession = some s →
      (startPlanner envS state).1 = Except.ok u →
      Option.map Session.threadId u.plannerSession = some s.threadId) ∧
    (∀ u, state.plannerSession = none →
      (startPlanner envS state).1 = Except.ok u →
      Option.map Session.threadId u.plannerSession = some envS.freshUuid) ∧
    (∀ cmd sess, (classifyMessage envC state).1 = Except.ok cmd →
      cmd.update.plannerSession = some sess →
      ∃ s, state.plannerSession = some s ∧ sess.threadId = s.threadId ∧
        sess.runId = envC.resumeRunId) ∧
    (∀ tid gid,
      Effect.resumeRunEff tid gid ∈ (classifyMessage envC state).2 →
      ∃ s, state.plannerSession = some s ∧ tid = s.threadId) := by
  refine ⟨?_, ?_, ?_, ?_⟩
  · intro s u hs hok
    cases hr : envS.runResult with
    | none => simp [startPlanner, hs, hr] at hok
    | some rid =>
      simp only [startPlanner, hs, hr] at hok
      injection hok with hok
      rw [← hok]
      rfl
  · intro u hs hok
    cases hr : envS.runResult with
    | none => simp [startPlanner, hs, hr] at hok
    | some rid =>
      simp only [startPlanner, hs, hr] at hok
      injection hok with hok
      rw [← hok]
      rfl
  · intro cmd sess hok hsess
    rcases classify_session_some hok hsess with ⟨_, ⟨s, hst, hts⟩, hrun⟩
    exact ⟨s, hst, hts, hrun⟩
  · intro tid gid hmem
    rcases classify_resume_mem hmem with ⟨_, s, hst, hts, _⟩
    exact ⟨s, hst, hts⟩

def c2EnvS : StartPlannerEnv :=
  { localMode := false, hasPatHeader := true, freshUuid := "fresh",
    branchFromConfig := "main", followupMessage := none,
    runResult := some "run2" }

def c2State : ManagerGraphState :=
  { messages := [{ id := "m1", role := Role.human, content := "go" }]
    githubIssueId := some 1
    targetRepository := { owner := "o", repo := "r" }
    plannerSession := some { threadId := "t1", runId := "run1" } }

theorem planner_threadId_stable_check :
    Option.map Session.threadId
      (updOf (startPlanner c2EnvS c2State).1).plannerSession = some "t1" :=
  (planner_threadId_stable c2EnvS c7Env c2State).1
    { threadId := "t1", runId := "run1" }
    (updOf (startPlanner c2EnvS c2State).1) rfl (by rfl)

def c3State : ManagerGraphState :=
  { messages :=
      [{ id := "m1", role := Role.human, content := "first",
         kwargs := { githubIssueId := some 1 } },
       { id := "m2", role := Role.human, content := "second" }]
    githubIssueId := some 1
    targetRepository := { owner := "o", repo := "r" }
    plannerSession := some { threadId := "pt", runId := "pr" } }

def c3Env : ClassifyEnv :=
  { localMode := false
    threads := fun tid =>
      if tid = "pt" then some { status := "busy" } else none
    plansFromIssue := fun _ => {}
    modelToolCalls :=
      [{ route := "resume_and_update_planner", response := "ok" }]
    responseId := "a1"
    createIssueResult := none
    commentId := fun _ => some 5
    resumeRunId := "rr" }

/-- C3 counterexample: with the chosen route `resume_and_update_planner` and
the planner thread not interrupted (status `busy`), the pass completes
without any error — no `InvalidResumeStateError` exists — and neither a
resume nor a fresh run is issued.  This refutes the claim that a
non-interrupted planner makes the operation fail. -/
theorem resume_route_without_interrupt_no_error_cex :
    c3Env.modelToolCalls.map ToolCallArgs.route =
      ["resume_and_update_planner"] ∧
    classifyPlannerStatus c3Env c3State = "busy" ∧
    isOkResult (classifyMessage c3Env c3State).1 = true ∧
    hasResumeEff (classifyMessage c3Env c3State).2 = false ∧
    hasCreateRunEff (classifyMessage c3Env c3State).2 = false := by
  decide

/-- C3 (amended): on a `resume_and_update_planner` invocation a resume is
performed only when the planner thread status is interrupted; when it is not
interrupted, no resume and no fresh run are issued — but no error is raised
on that account, the pass simply ends after mirroring. -/
theorem resume_only_when_interrupted (env : ClassifyEnv)
    (state : ManagerGraphState)
    (_hroute : Option.map ToolCallArgs.route env.modelToolCalls.head? =
      some "resume_and_update_planner") :
    (hasResumeEff (classifyMessage env state).2 = true →
      classifyPlannerStatus env state = "interrupted") ∧
    (classifyPlannerStatus env state ≠ "interrupted" →
      hasResumeEff (classifyMessage env state).2 = false ∧
      hasCreateRunEff (classifyMessage env state).2 = false) := by
  constructor
  · exact fun h => classify_hasResume_interrupted h
  · intro hne
    constructor
    · cases hx : hasResumeEff (classifyMessage env state).2
      · rfl
      · exact absurd (classify_hasResume_interrupted hx) hne
    · exact classify_no_createRun env state

theorem resume_only_when_interrupted_check :
    hasResumeEff (classifyMessage c3Env c3State).2 = false ∧
    hasCreateRunEff (classifyMessage c3Env c3State).2 = false :=
  (resume_only_when_interrupted c3Env c3State (by decide)).2 (by decide)

/-- C4: With an existing ticket and more than one human message, the mirror
step creates exactly one ticket comment per human message lacking a mirror
tag (the comment-creation calls of the trace are exactly one per selected
message, bodies equal to the message contents), and the returned delta
retracts each such message (a removal entry for its id) and appends a copy
tagged with the resulting comment id. -/
theorem mirror_creates_one_comment_per_untagged (env : ClassifyEnv)
    (state : ManagerGraphState) (args : ToolCallArgs) (n : Nat)
    (hlocal : env.localMode = false)
    (hargs : env.modelToolCalls.head? = some args)
    (h1 : args.route ≠ "no_op") (h2 : args.route ≠ "create_new_issue")
    (hissue : state.githubIssueId = some n) (hn : n ≠ 0)
    (hcount : 1 < (humanMessages state.messages).length)
    (hall : ((messagesNotInIssue state.messages).all
      (fun m => (env.commentId m.id).isSome)) = true)
    (hwf : classifyPlannerStatus env state = "interrupted" →
      ∃ s, state.plannerSession = some s ∧ s.threadId ≠ "") :
    isOkResult (classifyMessage env state).1 = true ∧
    commentCalls (classifyMessage env state).2 =
      (messagesNotInIssue state.messages).map
        (fun m => Effect.createCommentEff n m.content) ∧
    ∀ m, m ∈ messagesNotInIssue state.messages →
      MsgDelta.removeMsg m.id ∈
        (cmdUpdate (classifyMessage env state).1).messages ∧
      ∃ cid, env.commentId m.id = some cid ∧
        MsgDelta.add (mirrorTagged n cid
          (args.route == "start_planner_for_followup") m) ∈
          (cmdUpdate (classifyMessage env state).1).messages := by
  have hany : state.messages.any isHumanMessage = true :=
    any_of_humanMessages_pos (Nat.lt_trans Nat.zero_lt_one hcount)
  have hrev : state.messages.reverse.any isHumanMessage = true := by
    rw [any_reverse_human]
    exact hany
  rcases find?_isSome_of_any hrev with ⟨um, hfind, _⟩
  have hcm := classify_mirror_eq hfind hargs hlocal h1 h2 hissue hn hcount
  have hwf2 : classifyPlannerStatus env state = "interrupted" →
      presentThreadId state.plannerSession ≠ none := by
    intro hint
    rcases hwf hint with ⟨s, hsess, htid⟩
    rw [hsess]
    simp [presentThreadId, htid]
  have hstep := mirrorStep_ok_components args
    (responseMessage env args) n hall hwf2
  refine ⟨?_, ?_, ?_⟩
  · rw [hcm]
    exact hstep.1
  · rw [hcm]
    show commentCalls
      ((classifyPreEffects env state ++ [_]) ++
        (mirrorStep env state args (responseMessage env args) n).2) = _
    rw [commentCalls, List.filter_append, List.filter_append]
    rw [plain_filter_eq_nil (pre_effects_plain env state)
      (fun _ => rfl) (fun _ => rfl)]
    simpa [commentCalls, mirrorCommentEffects] using hstep.2.1
  · intro m hm
    have hc := List.all_eq_true.mp hall m hm
    rcases Option.isSome_iff_exists.mp (by simpa using hc) with ⟨cid, hcid⟩
    have hmem := mirrorDeltas_mem n
      (args.route == "start_planner_for_followup") hm hcid
    rw [hcm]
    constructor
    · show MsgDelta.removeMsg m.id ∈
        (cmdUpdate (mirrorStep env state args (responseMessage env args) n).1).messages
      rw [hstep.2.2]
      exact List.mem_cons_of_mem _ hmem.1
    · refine ⟨cid, hcid, ?_⟩
      show MsgDelta.add _ ∈
        (cmdUpdate (mirrorStep env state args (responseMessage env args) n).1).messages
      rw [hstep.2.2]
      exact List.mem_cons_of_mem _ hmem.2

def c4State : ManagerGraphState :=
  { messages :=
      [{ id := "m1", role := Role.human, content := "first",
         kwargs := { githubIssueId := some 1 } },
       { id := "m2", role := Role.human, content := "second" },
       { id := "m3", role := Role.ai, content := "reply" }]
    githubIssueId := some 1
    targetRepository := { owner := "o", repo := "r" }
    plannerSession := some { threadId := "pt", runId := "pr" } }

def c4Env : ClassifyEnv :=
  { localMode := false
    threads := fun tid =>
      if tid = "pt" then some { status := "idle" } else none
    plansFromIssue := fun _ => {}
    modelToolCalls := [{ route := "update_planner", response := "ok" }]
    responseId := "a1"
    createIssueResult := none
    commentId := fun _ => some 42
    resumeRunId := "rr" }

theorem mirror_creates_one_comment_per_untagged_check :
    isOkResult (classifyMessage c4Env c4State).1 = true ∧
    commentCalls (classifyMessage c4Env c4State).2 =
      (messagesNotInIssue c4State.messages).map
        (fun m => Effect.createCommentEff 1 m.content) := by
  have h := mirror_creates_one_comment_per_untagged c4Env c4State
    { route := "update_planner", response := "ok" } 1 rfl rfl (by decide)
    (by decide) rfl (by decide) (by decide) (by decide)
    (fun hint => absurd hint (by decide))
  exact ⟨h.1, h.2.1⟩

/-- The result of a successful `createNewSession` (neutral on error). -/
def csOf : Except PipelineError CreateSessionResult → CreateSessionResult
  | Except.ok r => r
  | Except.error _ =>
    { runThreadId := "", runGoto := "", runUpdate := {}, returned := {} }

/-- C6: Fork isolation.  On a successful `create_new_issue` fork, the delta
returned to the parent conversation is exactly one AI confirmation reply
linking the new thread — its ticket id, sessions, task plan, repository and
branch fields are all untouched — while the new ticket id, the repository
and the forwarded history are applied only to the run submitted against the
freshly generated top-level thread. -/
theorem create_new_issue_fork_isolation (env : CreateSessionEnv)
    (state : ManagerGraphState) (n : Nat)
    (hissue : env.createIssueResult = some n) :
    ∀ r, (createNewSession env state).1 = Except.ok r →
      r.returned.githubIssueId = none ∧
      r.returned.plannerSession = none ∧
      r.returned.taskPlan = none ∧
      r.returned.targetRepository = none ∧
      r.returned.branchName = none ∧
      r.returned.messages =
        [MsgDelta.add
          { id := env.responseMsgId, role := Role.ai,
            content := newSessionConfirmationText env.newManagerThreadId }] ∧
      r.runThreadId = env.newManagerThreadId ∧
      r.runGoto = "start-planner" ∧
      r.runUpdate.githubIssueId = some n ∧
      r.runUpdate.targetRepository = some state.targetRepository := by
  intro r hok
  simp only [createNewSession, hissue] at hok
  injection hok with hok
  rw [← hok]
  exact ⟨rfl, rfl, rfl, rfl, rfl, rfl, rfl, rfl, rfl, rfl⟩

def c6Env : CreateSessionEnv :=
  { localMode := false, hasPatHeader := true, issueTitle := "New task",
    issueBody := "do the thing", createIssueResult := some 9,
    humanMsgId := "h1", aiMsgId := "a1", newManagerThreadId := "nt1",
    responseMsgId := "r1", branchFromConfig := "main" }

def c6State : ManagerGraphState :=
  { messages := [{ id := "m1", role := Role.human, content := "old" }]
    githubIssueId := some 2
    targetRepository := { owner := "o", repo := "r" }
    taskPlan := some { tasks := ["t"], activeTaskIndex := 0 }
    plannerSession := some { threadId := "pt", runId := "pr" } }

theorem create_new_issue_fork_isolation_check :
    (csOf (createNewSession c6Env c6State).1).returned.githubIssueId =
        none ∧
      (csOf (createNewSession c6Env c6State).1).returned.plannerSession =
        none ∧
      (csOf (createNewSession c6Env c6State).1).returned.taskPlan = none ∧
      (csOf (createNewSession c6Env c6State).1).returned.targetRepository =
        none ∧
      (csOf (createNewSession c6Env c6State).1).returned.branchName = none ∧
      (csOf (createNewSession c6Env c6State).1).returned.messages =
        [MsgDelta.add
          { id := c6Env.responseMsgId, role := Role.ai,
            content :=
              newSessionConfirmationText c6Env.newManagerThreadId }] ∧
      (csOf (createNewSession c6Env c6State).1).runThreadId =
        c6Env.newManagerThreadId ∧
      (csOf (createNewSession c6Env c6State).1).runGoto = "start-planner" ∧
      (csOf (createNewSession c6Env c6State).1).runUpdate.githubIssueId =
        some 9 ∧
      (csOf (createNewSession c6Env c6State).1).runUpdate.targetRepository =
        some c6State.targetRepository :=
  create_new_issue_fork_isolation c6Env c6State 9 rfl
    (csOf (createNewSession c6Env c6State).1) (by rfl)

/-- C9: Silent drop at the ingress.  With the encryption key configured, a
label-applied event whose label is not in the recognized set (or is absent),
and likewise an event whose sender is not on the allow-list, is dropped
silently: the handler succeeds (no error surfaced to the sender) and its
effect trace is empty — zero ticket comments created, zero runs started. -/
theorem webhook_silent_drop (env : WebhookEnv) (payload : WebhookPayload)
    (hkey : env.hasEncryptionKey = true)
    (hdrop : (payload.labelName.getD "") ∉ validOpenSWELabels ∨
      env.allowedUser payload.senderLogin = false) :
    handleIssuesLabeled env payload = (Except.ok (), []) := by
  rcases hdrop with hinv | hauth
  · cases hl : payload.labelName with
    | none => simp [handleIssuesLabeled, hkey, hl]
    | some label =>
      rw [hl] at hinv
      simp only [Option.getD_some] at hinv
      simp [handleIssuesLabeled, hkey, hl, hinv]
  · cases hl : payload.labelName with
    | none => simp [handleIssuesLabeled, hkey, hl]
    | some label =>
      by_cases hmem : label ∈ validOpenSWELabels
      · cases hi : payload.installationId with
        | none => simp [handleIssuesLabeled, hkey, hl, hi]
        | some instId =>
          by_cases hz : instId = 0
          · simp [handleIssuesLabeled, hkey, hl, hi, hz]
          · simp [handleIssuesLabeled, hkey, hl, hi, hz, hauth, hmem]
      · simp [handleIssuesLabeled, hkey, hl, hmem]

def c9Env : WebhookEnv :=
  { hasEncryptionKey := true
    allowedUser := fun u => u == "alice"
    newThreadId := "wt1"
    runId := "wr1"
    runCreateOk := true }

def c9Payload : WebhookPayload :=
  { labelName := some "max"
    issueNumber := 7
    issueTitle := "bug"
    issueBody := some "details"
    installationId := some 12
    senderLogin := "mallory"
    senderId := 99
    owner := "o"
    repo := "r" }

theorem webhook_silent_drop_check :
    handleIssuesLabeled c9Env c9Payload = (Except.ok (), []) :=
  webhook_silent_drop c9Env c9Payload rfl (Or.inr (by decide))

def c10State : ManagerGraphState :=
  { messages :=
      [{ id := "m1", role := Role.human, content := "first",
         kwargs := { githubIssueId := some 1 } },
       { id := "m2", role := Role.human, content := "second" }]
    githubIssueId := some 1
    targetRepository := { owner := "o", repo := "r" }
    plannerSession := some { threadId := "pt", runId := "pr" } }

def c10Env : ClassifyEnv :=
  { localMode := false
    threads := fun tid =>
      if tid = "pt" then some { status := "interrupted" } else none
    plansFromIssue := fun _ => {}
    modelToolCalls := [{ route := "no_op", response := "ok" }]
    responseId := "a1"
    createIssueResult := none
    commentId := fun _ => some 5
    resumeRunId := "rr" }

/-- C10 counterexample: with a ticket, two human messages and an interrupted
planner, a pass whose chosen route is `no_op` issues no resume at all and
returns no session pointer — the claim's "regardless of which route the
classifier chose" fails for the `no_op` (and `create_new_issue`) early
returns. -/
theorem resume_not_issued_for_all_routes_cex :
    c10Env.localMode = false ∧
    c10Env.modelToolCalls.map ToolCallArgs.route = ["no_op"] ∧
    c10State.githubIssueId = some 1 ∧
    1 < (humanMessages c10State.messages).length ∧
    classifyPlannerStatus c10Env c10State = "interrupted" ∧
    isOkResult (classifyMessage c10Env c10State).1 = true ∧
    hasResumeEff (classifyMessage c10Env c10State).2 = false ∧
    sessionOfResult (classifyMessage c10Env c10State).1 = none := by
  decide

/-- C10 (amended): whenever a ticket exists, more than one human message is
in state, the planner thread is interrupted and a planner session with a
nonempty thread id is recorded, then for every chosen route other than
`no_op` and `create_new_issue` (outside local mode, with the comment
creations succeeding and a nonempty resume run id) the pass issues the
resume against the existing planner thread id after the mirroring comments,
and the returned delta carries the new run id under the unchanged thread
id. -/
theorem resume_after_mirroring_nonforking_routes (env : ClassifyEnv)
    (state : ManagerGraphState) (args : ToolCallArgs) (n : Nat) (s : Session)
    (hlocal : env.localMode = false)
    (hargs : env.modelToolCalls.head? = some args)
    (h1 : args.route ≠ "no_op") (h2 : args.route ≠ "create_new_issue")
    (hissue : state.githubIssueId = some n) (hn : n ≠ 0)
    (hcount : 1 < (humanMessages state.messages).length)
    (hint : classifyPlannerStatus env state = "interrupted")
    (hsess : state.plannerSession = some s) (htid : s.threadId ≠ "")
    (hall : ((messagesNotInIssue state.messages).all
      (fun m => (env.commentId m.id).isSome)) = true)
    (hrid : env.resumeRunId ≠ "") :
    isOkResult (classifyMessage env state).1 = true ∧
    (classifyMessage env state).2 =
      (classifyPreEffects env state ++
        [Effect.modelCall (lastHumanId state.messages)
          (classificationTaskPlan env state)]) ++
      (mirrorCommentEffects n state.messages ++
        [Effect.resumeRunEff s.threadId PLANNER_GRAPH_ID]) ∧
    sessionOfResult (classifyMessage env state).1 =
      some ⟨s.threadId, env.resumeRunId⟩ := by
  have hany : state.messages.any isHumanMessage = true :=
    any_of_humanMessages_pos (Nat.lt_trans Nat.zero_lt_one hcount)
  have hrev : state.messages.reverse.any isHumanMessage = true := by
    rw [any_reverse_human]
    exact hany
  rcases find?_isSome_of_any hrev with ⟨um, hfind, _⟩
  have hcm := classify_mirror_eq hfind hargs hlocal h1 h2 hissue hn hcount
  have hms := mirrorStep_resume_eq args
    (responseMessage env args) n hall hint hsess htid hrid
  rw [lastHumanId_eq hfind, hcm, hms]
  exact ⟨rfl, rfl, rfl⟩

def c10aEnv : ClassifyEnv :=
  { localMode := false
    threads := fun tid =>
      if tid = "pt" then some { status := "interrupted" } else none
    plansFromIssue := fun _ => {}
    modelToolCalls := [{ route := "update_planner", response := "ok" }]
    responseId := "a1"
    createIssueResult := none
    commentId := fun _ => some 5
    resumeRunId := "rr" }

theorem resume_after_mirroring_nonforking_routes_check :
    isOkResult (classifyMessage c10aEnv c10State).1 = true ∧
    (classifyMessage c10aEnv c10State).2 =
      (classifyPreEffects c10aEnv c10State ++
        [Effect.modelCall (lastHumanId c10State.messages)
          (classificationTaskPlan c10aEnv c10State)]) ++
      (mirrorCommentEffects 1 c10State.messages ++
        [Effect.resumeRunEff "pt" PLANNER_GRAPH_ID]) ∧
    sessionOfResult (classifyMessage c10aEnv c10State).1 =
      some ⟨"pt", c10aEnv.resumeRunId⟩ :=
  resume_after_mirroring_nonforking_routes c10aEnv c10State
    { route := "update_planner", response := "ok" } 1
    { threadId := "pt", runId := "pr" } rfl rfl (by decide) (by decide) rfl
    (by decide) (by decide) (by decide) rfl (by decide) (by decide)
    (by decide)

end OpenSWE
